import Mathlib

/-!
Verification of the labor-market time-series synthesis engine of
`src/services/ineService.ts` (the second, authoritative revision of the file,
lines 147-293, whose category catalogs begin with "Total") together with the
type declarations of `src/types.ts`.

Numeric model: the TypeScript code computes with JavaScript doubles
(`Math.sin`, `Math.pow`, `toFixed`).  We embed the arithmetic over the exact
real numbers, with `Real.sin` for `Math.sin` and `round2` (round half up to
two decimals) for `parseFloat(value.toFixed(2))`.  All calibration constants
of the source are exact rationals, kept in `ℚ` so that the control-flow
conditions stay decidable; they are cast into `ℝ` where the source mixes them
with the sinusoidal noise.  Years are modelled as `ℤ`, the age filters as `ℚ`.
-/

namespace LaborApps

/-- Enumeration `IndicatorType` of `src/types.ts` (lines 8-13).  In the source
each member carries a string value; `IndicatorType.str` below recovers it,
because the engine reads `indicator.length` off that string. -/
inductive IndicatorType
  | unemploymentRate
  | laborForceRate
  | employmentRate
  | monthlyWage
deriving DecidableEq

/-- The string value of each `IndicatorType` member, exactly as written in
`src/types.ts`. -/
def IndicatorType.str : IndicatorType → String
  | .unemploymentRate => "Unemployment Rate"
  | .laborForceRate => "Labor Force Rate"
  | .employmentRate => "Employment Rate"
  | .monthlyWage => "Monthly Wage"

/-- Enumeration `WageType` of `src/types.ts` (lines 15-18). -/
inductive WageType
  | nominal
  | constantBasis
deriving DecidableEq

/-- Enumeration `CharacteristicType` of `src/types.ts` (lines 20-25). -/
inductive CharacteristicType
  | region
  | education
  | ageGroup
  | gender
deriving DecidableEq

/-- Enumeration `FrequencyType` of `src/types.ts` (lines 27-30). -/
inductive FrequencyType
  | quarterly
  | annual
deriving DecidableEq

/-- The type `DataSourceType = 'official' | 'simulated'` of `src/types.ts`
(line 32). -/
inductive DataSourceType
  | official
  | simulated
deriving DecidableEq

/-- Interface `DataPoint` of `src/types.ts` (lines 34-39). -/
structure DataPoint where
  period : String
  value : ℝ
  category : String
  year : ℤ

/-- Interface `FetchResult` of `src/types.ts` (lines 41-44): it wraps a list
of observations together with a `DataSourceType` tag.  Note that nothing in
the repository ever constructs a value of this interface. -/
structure FetchResult where
  data : List DataPoint
  source : DataSourceType

/-- `MOCK_REGIONS` of `src/services/ineService.ts` line 149 (including the
mojibake spelling of the seventh entry, reproduced verbatim from the
source). -/
def MOCK_REGIONS : List String :=
  ["Total", "Madrid", "Catalonia", "Andalusia", "Basque Country", "Valencia",
   "Galicia", "Castile and LeÃ³n", "Canary Islands", "Murcia", "Aragon"]

/-- `MOCK_EDUCATION` of `src/services/ineService.ts` line 150. -/
def MOCK_EDUCATION : List String :=
  ["Total", "Primary", "Secondary", "Vocational Training", "Higher Education"]

/-- `MOCK_AGE_GROUPS` of `src/services/ineService.ts` line 151. -/
def MOCK_AGE_GROUPS : List String := ["Total", "16-24", "25-54", "55+"]

/-- `MOCK_GENDERS` of `src/services/ineService.ts` line 152. -/
def MOCK_GENDERS : List String := ["Total", "Male", "Female"]

/-- `getAvailableItems` of `src/services/ineService.ts` lines 154-162.  The
source `switch` has a `default: return []` arm; it is unreachable because
`CharacteristicType` has exactly the four members matched here, so the
embedding needs no extra case. -/
def getAvailableItems : CharacteristicType → List String
  | .region => MOCK_REGIONS
  | .education => MOCK_EDUCATION
  | .ageGroup => MOCK_AGE_GROUPS
  | .gender => MOCK_GENDERS

/-- `ageCenter` (`(minAge + maxAge) / 2`), `ineService.ts` line 177. -/
def ageCenter (minAge maxAge : ℚ) : ℚ := (minAge + maxAge) / 2

/-- The `baseValue` computed by `fetchLaborData` before the category loop,
`ineService.ts` lines 181-203.  The source first assigns a provisional base
(15 / 58 / 50 / 1350) and then overrides it in the age-adjustment block using
`isYouthFocus = maxAge <= 30` and `isSeniorFocus = minAge >= 55`; for the
labor-force rate and the monthly wage every branch of that block assigns, so
the provisional 58 and 1350 are dead, and the employment rate keeps 50. -/
def baseValue (ind : IndicatorType) (minAge maxAge : ℚ) : ℚ :=
  match ind with
  | .unemploymentRate =>
      if maxAge ≤ 30 then 32
      else if 55 ≤ minAge then 12
      else if 30 < ageCenter minAge maxAge ∧ ageCenter minAge maxAge < 50 then 11
      else 15
  | .laborForceRate =>
      if maxAge ≤ 30 then 35
      else if 55 ≤ minAge then 25
      else 82
  | .employmentRate => 50
  | .monthlyWage =>
      if maxAge ≤ 30 then 950
      else if 55 ≤ minAge then 1750
      else 1525

/-- The per-category `seed = cat.length + indicator.length`,
`ineService.ts` line 212 (string lengths; the indicator is its enum string
value). -/
def seedOf (cat : String) (ind : IndicatorType) : ℕ := cat.length + ind.str.length

/-- The per-category `catAdjustment`, `ineService.ts` lines 214-229: zero for
"Total"; otherwise `(seed % 8) - 4`, replaced for the monthly wage by
`((seed % 20) - 10) * 40`, and then shifted for the special-cased category
names. -/
def catAdjustment (ind : IndicatorType) (cat : String) : ℚ :=
  if cat = "Total" then 0
  else if ind = .monthlyWage then
    (((seedOf cat ind % 20 : ℕ) : ℚ) - 10) * 40
      + (if cat = "Madrid" ∨ cat = "Basque Country" then 400 else 0)
      + (if cat = "Andalusia" ∨ cat = "Canary Islands" then -250 else 0)
      + (if cat = "Higher Education" then 800 else 0)
      + (if cat = "Primary" then -400 else 0)
  else
    (((seedOf cat ind % 8 : ℕ) : ℚ) - 4)
      + (if cat = "Madrid" ∨ cat = "Basque Country" then -3 else 0)
      + (if cat = "Andalusia" ∨ cat = "Canary Islands" then 5 else 0)
      + (if cat = "Higher Education" then -6 else 0)

/-- `cycleImpact`, `ineService.ts` lines 234-249.  The closure is always
called as `cycleImpact(year)` with `yearIndex = year - 2002`, so the wage
branch's `yearIndex * 35` is `(y - 2002) * 35` here. -/
def cycleImpact (ind : IndicatorType) (y : ℤ) : ℚ :=
  match ind with
  | .unemploymentRate =>
      if y < 2008 then -5
      else if y < 2013 then ((y : ℚ) - 2008) * 3
      else if y < 2020 then 15 - ((y : ℚ) - 2013) * (3 / 2)
      else if y = 2020 then 3
      else -2
  | .monthlyWage =>
      ((y : ℚ) - 2002) * 35
        + (if 2008 ≤ y ∧ y < 2014 then -(((y : ℚ) - 2008) * 12) else 0)
        + (if 2021 ≤ y then ((y : ℚ) - 2021) * 30 else 0)
  | _ => 0

/-- `inflationFactor`, `ineService.ts` lines 205-209: the constant 2.2%
simulated annual rate compounded from the observation year to the reference
year 2024 (`Math.pow(1.022, 2024 - year)`). -/
noncomputable def inflationFactor (y : ℤ) : ℝ := (1.022 : ℝ) ^ (2024 - y)

/-- The idealized `parseFloat(value.toFixed(2))` of `ineService.ts`
lines 264 and 285: round to two decimal places. -/
noncomputable def round2 (x : ℝ) : ℝ := ((round (100 * x) : ℤ) : ℝ) / 100

/-- The annual value before the final two-decimal rounding,
`ineService.ts` lines 251-261: volatility `sin(year + seed) * 0.4` (times 15
for the wage), floor clamps at 700 (wage) or 2 (rates), and the constant-basis
inflation multiplication for the wage. -/
noncomputable def annualRawValue (ind : IndicatorType) (cat : String) (y : ℤ)
    (minAge maxAge : ℚ) (wageType : Option WageType) : ℝ :=
  let volatilitySeed : ℝ := Real.sin ((y : ℝ) + (seedOf cat ind : ℝ)) * 0.4
  let b : ℝ := (baseValue ind minAge maxAge : ℚ)
  let adj : ℝ := (catAdjustment ind cat : ℚ)
  let cyc : ℝ := (cycleImpact ind y : ℚ)
  if ind = .monthlyWage then
    let volatility := volatilitySeed * 15
    let nominalValue := max 700 (b + adj + cyc + volatility)
    if wageType = some .constantBasis then nominalValue * inflationFactor y
    else nominalValue
  else
    max 2 (b + adj + cyc + volatilitySeed)

/-- The quarter-`q` value before the final two-decimal rounding,
`ineService.ts` lines 270-281: seasonal `sin(q * 1.5) * 0.5` (entering the
wage branch multiplied by 10), volatility `sin(year * 4 + q + seed) * 0.3`
(times 10 for the wage), the same floors, and the same constant-basis
inflation multiplication. -/
noncomputable def quarterRawValue (ind : IndicatorType) (cat : String) (y : ℤ)
    (q : ℕ) (minAge maxAge : ℚ) (wageType : Option WageType) : ℝ :=
  let seasonal : ℝ := Real.sin ((q : ℝ) * 1.5) * 0.5
  let volatilitySeed : ℝ := Real.sin ((y : ℝ) * 4 + (q : ℝ) + (seedOf cat ind : ℝ)) * 0.3
  let b : ℝ := (baseValue ind minAge maxAge : ℚ)
  let adj : ℝ := (catAdjustment ind cat : ℚ)
  let cyc : ℝ := (cycleImpact ind y : ℚ)
  if ind = .monthlyWage then
    let volatility := volatilitySeed * 10
    let nominalValue := max 700 (b + adj + cyc + seasonal * 10 + volatility)
    if wageType = some .constantBasis then nominalValue * inflationFactor y
    else nominalValue
  else
    max 2 (b + adj + cyc + seasonal + volatilitySeed)

/-- The inclusive year iteration `for (let year = startYear; year <= endYear;
year++)`, `ineService.ts` line 231. -/
def yearRange (startYear endYear : ℤ) : List ℤ :=
  (List.range (endYear + 1 - startYear).toNat).map fun (i : ℕ) => startYear + (i : ℤ)

/-- The observations pushed for a single category: the year loop of
`ineService.ts` lines 231-290 with its annual branch (one point per year,
period `` `${year}` ``) and quarterly branch (four points per year, period
`` `${year}Q${q}` ``). -/
noncomputable def categoryObservations (ind : IndicatorType) (freq : FrequencyType)
    (startYear endYear : ℤ) (minAge maxAge : ℚ) (wageType : Option WageType)
    (cat : String) : List DataPoint :=
  (yearRange startYear endYear).flatMap fun y =>
    if freq = .annual then
      [{ period := toString y, year := y, category := cat,
         value := round2 (annualRawValue ind cat y minAge maxAge wageType) }]
    else
      ([1, 2, 3, 4] : List ℕ).map fun q =>
        { period := toString y ++ "Q" ++ toString q, year := y, category := cat,
          value := round2 (quarterRawValue ind cat y q minAge maxAge wageType) }

/-- `fetchLaborData`, `ineService.ts` lines 164-293: iterate the catalog's
categories in order and push their observations; the promise resolves with
the accumulated `data` array (line 292).  The source computes `baseValue`,
`inflationFactor`, `seed` and `catAdjustment` once outside the inner loops;
they are pure, so recomputing them inside `categoryObservations` is
value-identical. -/
noncomputable def fetchLaborData (ind : IndicatorType) (ch : CharacteristicType)
    (freq : FrequencyType) (startYear endYear : ℤ) (minAge maxAge : ℚ)
    (wageType : Option WageType) : List DataPoint :=
  (getAvailableItems ch).flatMap
    (categoryObservations ind freq startYear endYear minAge maxAge wageType)

/-- The provenance component of the value returned by `fetchLaborData`.  The
function returns the bare `data : DataPoint[]` array (`ineService.ts`
line 292, return type `Promise<DataPoint[]>` on line 173); a `FetchResult`
wrapper with its `source : DataSourceType` field is declared in
`src/types.ts` but never constructed anywhere in the repository, so the
returned value has no source component at all: the projection is constantly
`none`. -/
def fetchLaborDataSourceTag (_ind : IndicatorType) (_ch : CharacteristicType)
    (_freq : FrequencyType) (_startYear _endYear : ℤ) (_minAge _maxAge : ℚ)
    (_wageType : Option WageType) : Option DataSourceType := none

/-- Series lookup by category and period, as the rendering layer consumes the
result (`src/components/ChartContainer.tsx` line 23:
`data.find(d => d.period === period && d.category === cat)`). -/
noncomputable def valueAt (data : List DataPoint) (cat period : String) : Option ℝ :=
  (data.find? fun d => d.period == period && d.category == cat).map DataPoint.value

/-- Lexicographic (character-by-character) non-strict order on period
strings, the order named by the spec's sorting step. -/
def periodLe (a b : String) : Prop := a = b ∨ List.Lex (· < ·) a.data b.data

instance (a b : String) : Decidable (periodLe a b) := by
  unfold periodLe
  infer_instance

/-! Helper lemmas about the two-decimal rounding. -/

lemma round2_mono {x y : ℝ} (h : x ≤ y) : round2 x ≤ round2 y := by
  unfold round2
  have hr : round (100 * x) ≤ round (100 * y) := by
    rw [round_eq, round_eq]
    exact Int.floor_le_floor (by linarith)
  have hc : ((round (100 * x) : ℤ) : ℝ) ≤ ((round (100 * y) : ℤ) : ℝ) := by
    exact_mod_cast hr
  linarith

lemma mem_yearRange {s e y : ℤ} : y ∈ yearRange s e ↔ s ≤ y ∧ y ≤ e := by
  unfold yearRange
  constructor
  · intro hmem
    obtain ⟨i, hi, hEq⟩ := List.mem_map.mp hmem
    have hi2 := List.mem_range.mp hi
    omega
  · intro h
    exact List.mem_map.mpr
      ⟨(y - s).toNat, List.mem_range.mpr (by omega), by omega⟩

lemma round2_le_add (x : ℝ) : round2 x ≤ x + 1 / 200 := by
  unfold round2
  have h := (abs_le.mp (abs_sub_round (100 * x))).1
  linarith

lemma sub_le_round2 (x : ℝ) : x - 1 / 200 ≤ round2 x := by
  unfold round2
  have h := (abs_le.mp (abs_sub_round (100 * x))).2
  linarith

lemma round2_intCast_div (k : ℤ) : round2 ((k : ℝ) / 100) = (k : ℝ) / 100 := by
  unfold round2
  rw [show (100 : ℝ) * ((k : ℝ) / 100) = (k : ℝ) by ring, round_intCast]

lemma round2_lt_round2 {x y : ℝ} (h : x + 1 / 100 < y) : round2 x < round2 y := by
  have h1 := round2_le_add x
  have h2 := sub_le_round2 y
  linarith

lemma yearRange_2010_2012 : yearRange 2010 2012 = [2010, 2011, 2012] := by decide

lemma round2_two : round2 (2 : ℝ) = 2 := by
  rw [show (2 : ℝ) = ((200 : ℤ) : ℝ) / 100 by norm_num, round2_intCast_div]

lemma round2_sevenHundred : round2 (700 : ℝ) = 700 := by
  rw [show (700 : ℝ) = ((70000 : ℤ) : ℝ) / 100 by norm_num, round2_intCast_div]

/-! Concrete numeric bounds on the sinusoid, obtained from the rational
bounds on pi and the quartic Taylor bounds on cosine. -/

lemma cos_lb_small {v : ℝ} (h0 : 0 ≤ v) (h1 : v ≤ 1) :
    1 - v ^ 2 / 2 - v ^ 4 * (5 / 96) ≤ Real.cos v := by
  have hb := Real.cos_bound (x := v) (by rw [abs_of_nonneg h0]; exact h1)
  rw [abs_of_nonneg h0] at hb
  linarith [(abs_le.mp hb).1]

lemma sin_2028_le : Real.sin 2028 ≤ -0.96 := by
  have hpl : (3.141592 : ℝ) < Real.pi := Real.pi_gt_d6
  have hpu : Real.pi < 3.141593 := Real.pi_lt_d6
  have h1 : Real.sin 2028 = Real.cos (2028 - Real.pi / 2) :=
    (Real.cos_sub_pi_div_two 2028).symm
  have h2 : Real.cos (2028 - Real.pi / 2) =
      Real.cos ((2028 - Real.pi / 2) + (-323 : ℤ) * (2 * Real.pi)) :=
    (Real.cos_add_int_mul_two_pi _ _).symm
  have h3 : (2028 - Real.pi / 2) + ((-323 : ℤ) : ℝ) * (2 * Real.pi) =
      -(Real.pi - (2028 - (1291 / 2) * Real.pi)) := by
    push_cast
    ring
  have h4 : Real.cos (-(Real.pi - (2028 - (1291 / 2) * Real.pi))) =
      -Real.cos (2028 - (1291 / 2) * Real.pi) := by
    rw [Real.cos_neg, Real.cos_pi_sub]
  have hv0 : (0.101 : ℝ) ≤ 2028 - (1291 / 2) * Real.pi := by nlinarith
  have hv1 : 2028 - (1291 / 2) * Real.pi ≤ 0.103 := by nlinarith
  have hv2 : (2028 - (1291 / 2) * Real.pi) ^ 2 ≤ 0.010609 := by nlinarith
  have hv4 : (2028 - (1291 / 2) * Real.pi) ^ 4 ≤ 0.00012 := by nlinarith
  have hc : (0.96 : ℝ) ≤ Real.cos (2028 - (1291 / 2) * Real.pi) := by
    have hlb := cos_lb_small (v := 2028 - (1291 / 2) * Real.pi) (by linarith) (by linarith)
    linarith
  rw [h1, h2, h3, h4]
  linarith

lemma sin_three_halves_ge : (0.99 : ℝ) ≤ Real.sin (3 / 2) := by
  have hpl : (3.141592 : ℝ) < Real.pi := Real.pi_gt_d6
  have hpu : Real.pi < 3.141593 := Real.pi_lt_d6
  have h1 : Real.sin (3 / 2) = Real.cos (Real.pi / 2 - 3 / 2) :=
    (Real.cos_pi_div_two_sub (3 / 2)).symm
  have hv0 : (0.070 : ℝ) ≤ Real.pi / 2 - 3 / 2 := by nlinarith
  have hv1 : Real.pi / 2 - 3 / 2 ≤ 0.0708 := by nlinarith
  have hv2 : (Real.pi / 2 - 3 / 2) ^ 2 ≤ 0.00502 := by nlinarith
  have hv4 : (Real.pi / 2 - 3 / 2) ^ 4 ≤ 0.000026 := by nlinarith
  have hlb := cos_lb_small (v := Real.pi / 2 - 3 / 2) (by linarith) (by linarith)
  rw [h1]
  linarith

lemma yearRange_2011 : yearRange 2011 2011 = [2011] := by decide

lemma yearRange_2010_2011 : yearRange 2010 2011 = [2010, 2011] := by decide

lemma yearRange_pairwise (s e : ℤ) : List.Pairwise (· ≤ ·) (yearRange s e) := by
  unfold yearRange
  refine List.pairwise_map.mpr ?_
  refine (List.pairwise_lt_range _).imp ?_
  intro i j hij
  omega

lemma baseValue_wage_16_64 : baseValue .monthlyWage 16 64 = 1525 := by
  unfold baseValue
  norm_num

lemma catAdjustment_wage_total : catAdjustment .monthlyWage "Total" = 0 := by
  unfold catAdjustment
  simp

lemma cycleImpact_wage_2011 : cycleImpact .monthlyWage 2011 = 279 := by
  show ((2011 : ℚ) - 2002) * 35
      + (if (2008 : ℤ) ≤ 2011 ∧ (2011 : ℤ) < 2014 then -(((2011 : ℚ) - 2008) * 12) else 0)
      + (if (2021 : ℤ) ≤ 2011 then ((2011 : ℚ) - 2021) * 30 else 0) = 279
  norm_num

lemma seedOf_total_wage : seedOf "Total" .monthlyWage = 17 := by decide

lemma sin_three_pos : (0 : ℝ) < Real.sin 3 :=
  Real.sin_pos_of_pos_of_lt_pi (by norm_num) (by nlinarith [Real.pi_gt_d6])

/-! Calibration facts used by several claims. -/

lemma eleven_le_baseValue_unemployment (a b : ℚ) :
    11 ≤ baseValue .unemploymentRate a b := by
  unfold baseValue
  split_ifs <;> norm_num

lemma catAdjustment_unemployment_andalusia :
    catAdjustment .unemploymentRate "Andalusia" = 3 := by
  have hs : seedOf "Andalusia" .unemploymentRate = 26 := by decide
  unfold catAdjustment
  rw [hs]
  simp
  norm_num

lemma catAdjustment_unemployment_madrid :
    catAdjustment .unemploymentRate "Madrid" = 0 := by
  have hs : seedOf "Madrid" .unemploymentRate = 23 := by decide
  unfold catAdjustment
  rw [hs]
  simp
  norm_num

lemma cycleImpact_unemployment_nonneg {y : ℤ} (h1 : 2008 ≤ y) (h2 : y < 2013) :
    0 ≤ cycleImpact .unemploymentRate y := by
  show (0 : ℚ) ≤
    (if y < 2008 then (-5 : ℚ)
     else if y < 2013 then ((y : ℚ) - 2008) * 3
     else if y < 2020 then 15 - ((y : ℚ) - 2013) * (3 / 2)
     else if y = 2020 then 3
     else -2)
  rw [if_neg (by omega), if_pos (by omega)]
  have hc : (2008 : ℚ) ≤ (y : ℚ) := by exact_mod_cast h1
  nlinarith

lemma one_le_inflationFactor {y : ℤ} (h : y ≤ 2024) : 1 ≤ inflationFactor y := by
  unfold inflationFactor
  exact one_le_zpow₀ (by norm_num) (by omega)

/-! Floor bounds on the raw synthesized values. -/

lemma annualRawValue_ge_two {ind : IndicatorType} (cat : String) (y : ℤ)
    (a b : ℚ) (wt : Option WageType) (h : ind ≠ .monthlyWage) :
    (2 : ℝ) ≤ annualRawValue ind cat y a b wt := by
  unfold annualRawValue
  rw [if_neg h]
  exact le_max_left _ _

lemma quarterRawValue_ge_two {ind : IndicatorType} (cat : String) (y : ℤ) (q : ℕ)
    (a b : ℚ) (wt : Option WageType) (h : ind ≠ .monthlyWage) :
    (2 : ℝ) ≤ quarterRawValue ind cat y q a b wt := by
  unfold quarterRawValue
  rw [if_neg h]
  exact le_max_left _ _

lemma le_mul_of_le_of_one_le {c x f : ℝ} (hx : c ≤ x) (hf : 1 ≤ f) (hc : 0 ≤ c) :
    c ≤ x * f := by
  nlinarith [mul_nonneg (sub_nonneg.mpr hx) (sub_nonneg.mpr hf),
    mul_nonneg hc (sub_nonneg.mpr hf)]

lemma annualRawValue_wage_ge {cat : String} {y : ℤ} {a b : ℚ} {wt : Option WageType}
    (h : wt ≠ some .constantBasis ∨ y ≤ 2024) :
    (700 : ℝ) ≤ annualRawValue .monthlyWage cat y a b wt := by
  unfold annualRawValue
  rw [if_pos rfl]
  by_cases hwt : wt = some WageType.constantBasis
  · rcases h with h | h
    · exact absurd hwt h
    · rw [if_pos hwt]
      exact le_mul_of_le_of_one_le (le_max_left _ _) (one_le_inflationFactor h)
        (by norm_num)
  · rw [if_neg hwt]
    exact le_max_left _ _

lemma quarterRawValue_wage_ge {cat : String} {y : ℤ} {q : ℕ} {a b : ℚ}
    {wt : Option WageType} (h : wt ≠ some .constantBasis ∨ y ≤ 2024) :
    (700 : ℝ) ≤ quarterRawValue .monthlyWage cat y q a b wt := by
  unfold quarterRawValue
  rw [if_pos rfl]
  by_cases hwt : wt = some WageType.constantBasis
  · rcases h with h | h
    · exact absurd hwt h
    · rw [if_pos hwt]
      exact le_mul_of_le_of_one_le (le_max_left _ _) (one_le_inflationFactor h)
        (by norm_num)
  · rw [if_neg hwt]
    exact le_max_left _ _

/-! Claim theorems. -/

/-- Claim C1 (counterexample): the claim says the public query entry point
returns a result structure carrying a source tag valued 'official' or
'simulated'.  It is false: `fetchLaborData` returns the bare observation
array, so at the concrete query (unemployment rate, region, annual,
2010-2012, ages 16-64, no wage basis) there is no source tag at all. -/
theorem claim_C1_counterexample :
    ¬ ∃ s : DataSourceType,
        fetchLaborDataSourceTag .unemploymentRate .region .annual
          2010 2012 16 64 none = some s := by
  intro h
  obtain ⟨s, hs⟩ := h
  simp [fetchLaborDataSourceTag] at hs

/-- Claim C1 (amended): for every query, `fetchLaborData` returns only the
observation list, with no source tag attached (the `FetchResult` wrapper of
`types.ts` is declared but never constructed); the call never fails and the
list is non-empty whenever the year range is non-empty. -/
theorem claim_C1_amended (ind : IndicatorType) (ch : CharacteristicType)
    (freq : FrequencyType) (startYear endYear : ℤ) (minAge maxAge : ℚ)
    (wageType : Option WageType) :
    fetchLaborDataSourceTag ind ch freq startYear endYear minAge maxAge wageType
        = none ∧
    (startYear ≤ endYear →
      fetchLaborData ind ch freq startYear endYear minAge maxAge wageType ≠ []) := by
  refine ⟨rfl, fun hle => ?_⟩
  have hy : startYear ∈ yearRange startYear endYear :=
    mem_yearRange.mpr ⟨le_refl _, hle⟩
  have hcat : "Total" ∈ getAvailableItems ch := by
    cases ch <;> decide
  have hblock : ∃ d : DataPoint,
      d ∈ categoryObservations ind freq startYear endYear minAge maxAge wageType
            "Total" := by
    unfold categoryObservations
    cases freq with
    | annual =>
        refine ⟨{ period := toString startYear, year := startYear, category := "Total",
                  value := round2 (annualRawValue ind "Total" startYear minAge maxAge
                    wageType) }, ?_⟩
        refine List.mem_flatMap.mpr ⟨startYear, hy, ?_⟩
        rw [if_pos rfl]
        exact List.mem_singleton.mpr rfl
    | quarterly =>
        refine ⟨{ period := toString startYear ++ "Q" ++ toString 1, year := startYear,
                  category := "Total",
                  value := round2 (quarterRawValue ind "Total" startYear 1 minAge maxAge
                    wageType) }, ?_⟩
        refine List.mem_flatMap.mpr ⟨startYear, hy, ?_⟩
        rw [if_neg (by decide)]
        exact List.mem_map.mpr ⟨1, by decide, rfl⟩
  obtain ⟨d, hd⟩ := hblock
  exact List.ne_nil_of_mem
    (List.mem_flatMap.mpr ⟨"Total", hcat, hd⟩)

/-- Claim C1 (witness for the amended theorem) at the query (unemployment
rate, region, annual, 2010-2012, ages 16-64, no wage basis). -/
theorem claim_C1_amended_witness :
    fetchLaborDataSourceTag .unemploymentRate .region .annual
        2010 2012 16 64 none = none ∧
    fetchLaborData .unemploymentRate .region .annual 2010 2012 16 64 none ≠ [] := by
  have h := claim_C1_amended .unemploymentRate .region .annual 2010 2012 16 64 none
  exact ⟨h.1, h.2 (by norm_num)⟩

/-- Claim C2 (counterexample): the claim equates the annual value with the
two-decimal rounding of the mean of the four quarterly values for the same
(category, year).  At the concrete query (monthly wage, gender, 2011-2011,
ages 16-64, nominal basis) the annual value for ("Total", 2011) is at most
1798.24 (its own volatility draw sin 2028 is below -0.96), while the rounded
mean of the four quarterly values is at least 1799.72: the code synthesizes
the annual point directly instead of aggregating quarters. -/
theorem claim_C2_counterexample :
    ∃ av q1v q2v q3v q4v : ℝ,
      valueAt (fetchLaborData .monthlyWage .gender .annual 2011 2011 16 64 none)
          "Total" "2011" = some av ∧
      valueAt (fetchLaborData .monthlyWage .gender .quarterly 2011 2011 16 64 none)
          "Total" "2011Q1" = some q1v ∧
      valueAt (fetchLaborData .monthlyWage .gender .quarterly 2011 2011 16 64 none)
          "Total" "2011Q2" = some q2v ∧
      valueAt (fetchLaborData .monthlyWage .gender .quarterly 2011 2011 16 64 none)
          "Total" "2011Q3" = some q3v ∧
      valueAt (fetchLaborData .monthlyWage .gender .quarterly 2011 2011 16 64 none)
          "Total" "2011Q4" = some q4v ∧
      av ≠ round2 ((q1v + q2v + q3v + q4v) / 4) := by
  refine ⟨round2 (annualRawValue .monthlyWage "Total" 2011 16 64 none),
    round2 (quarterRawValue .monthlyWage "Total" 2011 1 16 64 none),
    round2 (quarterRawValue .monthlyWage "Total" 2011 2 16 64 none),
    round2 (quarterRawValue .monthlyWage "Total" 2011 3 16 64 none),
    round2 (quarterRawValue .monthlyWage "Total" 2011 4 16 64 none),
    ?_, ?_, ?_, ?_, ?_, ?_⟩
  · simp +decide [valueAt, fetchLaborData, categoryObservations, getAvailableItems,
      MOCK_GENDERS, yearRange_2011]
  · simp +decide [valueAt, fetchLaborData, categoryObservations, getAvailableItems,
      MOCK_GENDERS, yearRange_2011]
  · simp +decide [valueAt, fetchLaborData, categoryObservations, getAvailableItems,
      MOCK_GENDERS, yearRange_2011]
  · simp +decide [valueAt, fetchLaborData, categoryObservations, getAvailableItems,
      MOCK_GENDERS, yearRange_2011]
  · simp +decide [valueAt, fetchLaborData, categoryObservations, getAvailableItems,
      MOCK_GENDERS, yearRange_2011]
  · have hav : round2 (annualRawValue .monthlyWage "Total" 2011 16 64 none) ≤ 1798.25 := by
      unfold annualRawValue
      rw [if_pos rfl, if_neg (by decide), baseValue_wage_16_64, catAdjustment_wage_total,
        cycleImpact_wage_2011, seedOf_total_wage]
      norm_num
      have h1 := sin_2028_le
      have h2 := Real.neg_one_le_sin (2028 : ℝ)
      rw [sup_eq_right.mpr (by nlinarith)]
      refine le_trans (round2_le_add _) ?_
      nlinarith
    have hq1 : (1805.94 : ℝ) ≤
        round2 (quarterRawValue .monthlyWage "Total" 2011 1 16 64 none) := by
      unfold quarterRawValue
      rw [if_pos rfl, if_neg (by decide), baseValue_wage_16_64, catAdjustment_wage_total,
        cycleImpact_wage_2011, seedOf_total_wage]
      norm_num
      have hs := sin_three_halves_ge
      have hs2 := Real.sin_le_one ((3 : ℝ) / 2)
      have hn1 := Real.neg_one_le_sin (8062 : ℝ)
      have hn2 := Real.sin_le_one (8062 : ℝ)
      rw [sup_eq_right.mpr (by nlinarith)]
      refine le_trans ?_ (sub_le_round2 _)
      nlinarith
    have hq2 : (1800.99 : ℝ) ≤
        round2 (quarterRawValue .monthlyWage "Total" 2011 2 16 64 none) := by
      unfold quarterRawValue
      rw [if_pos rfl, if_neg (by decide), baseValue_wage_16_64, catAdjustment_wage_total,
        cycleImpact_wage_2011, seedOf_total_wage]
      norm_num
      have hs := sin_three_pos
      have hs2 := Real.sin_le_one (3 : ℝ)
      have hn1 := Real.neg_one_le_sin (8063 : ℝ)
      have hn2 := Real.sin_le_one (8063 : ℝ)
      rw [sup_eq_right.mpr (by nlinarith)]
      refine le_trans ?_ (sub_le_round2 _)
      nlinarith
    have hq3 : (1795.99 : ℝ) ≤
        round2 (quarterRawValue .monthlyWage "Total" 2011 3 16 64 none) := by
      unfold quarterRawValue
      rw [if_pos rfl, if_neg (by decide), baseValue_wage_16_64, catAdjustment_wage_total,
        cycleImpact_wage_2011, seedOf_total_wage]
      norm_num
      have hs1 := Real.neg_one_le_sin ((9 : ℝ) / 2)
      have hs2 := Real.sin_le_one ((9 : ℝ) / 2)
      have hn1 := Real.neg_one_le_sin (8064 : ℝ)
      have hn2 := Real.sin_le_one (8064 : ℝ)
      rw [sup_eq_right.mpr (by nlinarith)]
      refine le_trans ?_ (sub_le_round2 _)
      nlinarith
    have hq4 : (1795.99 : ℝ) ≤
        round2 (quarterRawValue .monthlyWage "Total" 2011 4 16 64 none) := by
      unfold quarterRawValue
      rw [if_pos rfl, if_neg (by decide), baseValue_wage_16_64, catAdjustment_wage_total,
        cycleImpact_wage_2011, seedOf_total_wage]
      norm_num
      have hs1 := Real.neg_one_le_sin (6 : ℝ)
      have hs2 := Real.sin_le_one (6 : ℝ)
      have hn1 := Real.neg_one_le_sin (8065 : ℝ)
      have hn2 := Real.sin_le_one (8065 : ℝ)
      rw [sup_eq_right.mpr (by nlinarith)]
      refine le_trans ?_ (sub_le_round2 _)
      nlinarith
    have hm := sub_le_round2
      ((round2 (quarterRawValue .monthlyWage "Total" 2011 1 16 64 none) +
        round2 (quarterRawValue .monthlyWage "Total" 2011 2 16 64 none) +
        round2 (quarterRawValue .monthlyWage "Total" 2011 3 16 64 none) +
        round2 (quarterRawValue .monthlyWage "Total" 2011 4 16 64 none)) / 4)
    exact ne_of_lt (by linarith)

/-- Claim C2 (amended, arithmetic core for the wage): with the floor slack
hypothesis, the annual wage value and the rounded mean of the four quarterly
wage values stay within 14.1 of each other - but they are built from
independent volatility draws and need not be equal. -/
lemma mean_bound_wage (C s0 s1 s2 s3 s4 n1 n2 n3 n4 : ℝ)
    (hC : 708 ≤ C)
    (hs0 : |s0| ≤ 1) (hs1 : |s1| ≤ 1) (hs2 : |s2| ≤ 1) (hs3 : |s3| ≤ 1)
    (hs4 : |s4| ≤ 1) (hn1 : |n1| ≤ 1) (hn2 : |n2| ≤ 1) (hn3 : |n3| ≤ 1)
    (hn4 : |n4| ≤ 1) :
    |round2 (max 700 (C + s0 * 0.4 * 15)) -
        round2 ((round2 (max 700 (C + s1 * 0.5 * 10 + n1 * 0.3 * 10)) +
          round2 (max 700 (C + s2 * 0.5 * 10 + n2 * 0.3 * 10)) +
          round2 (max 700 (C + s3 * 0.5 * 10 + n3 * 0.3 * 10)) +
          round2 (max 700 (C + s4 * 0.5 * 10 + n4 * 0.3 * 10))) / 4)| ≤ 14.1 := by
  obtain ⟨hs0a, hs0b⟩ := abs_le.mp hs0
  obtain ⟨hs1a, hs1b⟩ := abs_le.mp hs1
  obtain ⟨hs2a, hs2b⟩ := abs_le.mp hs2
  obtain ⟨hs3a, hs3b⟩ := abs_le.mp hs3
  obtain ⟨hs4a, hs4b⟩ := abs_le.mp hs4
  obtain ⟨hn1a, hn1b⟩ := abs_le.mp hn1
  obtain ⟨hn2a, hn2b⟩ := abs_le.mp hn2
  obtain ⟨hn3a, hn3b⟩ := abs_le.mp hn3
  obtain ⟨hn4a, hn4b⟩ := abs_le.mp hn4
  rw [max_eq_right (by nlinarith), max_eq_right (by nlinarith),
    max_eq_right (by nlinarith), max_eq_right (by nlinarith),
    max_eq_right (by nlinarith)]
  have ha1 := round2_le_add (C + s0 * 0.4 * 15)
  have ha2 := sub_le_round2 (C + s0 * 0.4 * 15)
  have hb1 := round2_le_add (C + s1 * 0.5 * 10 + n1 * 0.3 * 10)
  have hb2 := sub_le_round2 (C + s1 * 0.5 * 10 + n1 * 0.3 * 10)
  have hc1 := round2_le_add (C + s2 * 0.5 * 10 + n2 * 0.3 * 10)
  have hc2 := sub_le_round2 (C + s2 * 0.5 * 10 + n2 * 0.3 * 10)
  have hd1 := round2_le_add (C + s3 * 0.5 * 10 + n3 * 0.3 * 10)
  have hd2 := sub_le_round2 (C + s3 * 0.5 * 10 + n3 * 0.3 * 10)
  have he1 := round2_le_add (C + s4 * 0.5 * 10 + n4 * 0.3 * 10)
  have he2 := sub_le_round2 (C + s4 * 0.5 * 10 + n4 * 0.3 * 10)
  have hm1 := round2_le_add
    ((round2 (C + s1 * 0.5 * 10 + n1 * 0.3 * 10) +
      round2 (C + s2 * 0.5 * 10 + n2 * 0.3 * 10) +
      round2 (C + s3 * 0.5 * 10 + n3 * 0.3 * 10) +
      round2 (C + s4 * 0.5 * 10 + n4 * 0.3 * 10)) / 4)
  have hm2 := sub_le_round2
    ((round2 (C + s1 * 0.5 * 10 + n1 * 0.3 * 10) +
      round2 (C + s2 * 0.5 * 10 + n2 * 0.3 * 10) +
      round2 (C + s3 * 0.5 * 10 + n3 * 0.3 * 10) +
      round2 (C + s4 * 0.5 * 10 + n4 * 0.3 * 10)) / 4)
  rw [abs_le]
  constructor <;> linarith

/-- Claim C2 (amended, arithmetic core for the rate indicators): with the
floor slack hypothesis, the annual rate value and the rounded mean of the
four quarterly rate values stay within 1.3 of each other. -/
lemma mean_bound_rate (C s0 s1 s2 s3 s4 n1 n2 n3 n4 : ℝ)
    (hC : 3 ≤ C)
    (hs0 : |s0| ≤ 1) (hs1 : |s1| ≤ 1) (hs2 : |s2| ≤ 1) (hs3 : |s3| ≤ 1)
    (hs4 : |s4| ≤ 1) (hn1 : |n1| ≤ 1) (hn2 : |n2| ≤ 1) (hn3 : |n3| ≤ 1)
    (hn4 : |n4| ≤ 1) :
    |round2 (max 2 (C + s0 * 0.4)) -
        round2 ((round2 (max 2 (C + s1 * 0.5 + n1 * 0.3)) +
          round2 (max 2 (C + s2 * 0.5 + n2 * 0.3)) +
          round2 (max 2 (C + s3 * 0.5 + n3 * 0.3)) +
          round2 (max 2 (C + s4 * 0.5 + n4 * 0.3))) / 4)| ≤ 1.3 := by
  obtain ⟨hs0a, hs0b⟩ := abs_le.mp hs0
  obtain ⟨hs1a, hs1b⟩ := abs_le.mp hs1
  obtain ⟨hs2a, hs2b⟩ := abs_le.mp hs2
  obtain ⟨hs3a, hs3b⟩ := abs_le.mp hs3
  obtain ⟨hs4a, hs4b⟩ := abs_le.mp hs4
  obtain ⟨hn1a, hn1b⟩ := abs_le.mp hn1
  obtain ⟨hn2a, hn2b⟩ := abs_le.mp hn2
  obtain ⟨hn3a, hn3b⟩ := abs_le.mp hn3
  obtain ⟨hn4a, hn4b⟩ := abs_le.mp hn4
  rw [max_eq_right (by nlinarith), max_eq_right (by nlinarith),
    max_eq_right (by nlinarith), max_eq_right (by nlinarith),
    max_eq_right (by nlinarith)]
  have ha1 := round2_le_add (C + s0 * 0.4)
  have ha2 := sub_le_round2 (C + s0 * 0.4)
  have hb1 := round2_le_add (C + s1 * 0.5 + n1 * 0.3)
  have hb2 := sub_le_round2 (C + s1 * 0.5 + n1 * 0.3)
  have hc1 := round2_le_add (C + s2 * 0.5 + n2 * 0.3)
  have hc2 := sub_le_round2 (C + s2 * 0.5 + n2 * 0.3)
  have hd1 := round2_le_add (C + s3 * 0.5 + n3 * 0.3)
  have hd2 := sub_le_round2 (C + s3 * 0.5 + n3 * 0.3)
  have he1 := round2_le_add (C + s4 * 0.5 + n4 * 0.3)
  have he2 := sub_le_round2 (C + s4 * 0.5 + n4 * 0.3)
  have hm1 := round2_le_add
    ((round2 (C + s1 * 0.5 + n1 * 0.3) + round2 (C + s2 * 0.5 + n2 * 0.3) +
      round2 (C + s3 * 0.5 + n3 * 0.3) + round2 (C + s4 * 0.5 + n4 * 0.3)) / 4)
  have hm2 := sub_le_round2
    ((round2 (C + s1 * 0.5 + n1 * 0.3) + round2 (C + s2 * 0.5 + n2 * 0.3) +
      round2 (C + s3 * 0.5 + n3 * 0.3) + round2 (C + s4 * 0.5 + n4 * 0.3)) / 4)
  rw [abs_le]
  constructor <;> linarith

/-- Claim C2 (amended): annual values are synthesized directly with their own
volatility draw, not by averaging the four quarterly values; whenever the
floor clamp has slack, the annual value stays within a calibrated band of the
rounded quarterly mean (14.1 for the wage indicator, 1.3 for the rates, on a
non-constant basis), but equality is not guaranteed. -/
theorem claim_C2_amended (ind : IndicatorType) (cat : String) (y : ℤ) (a b : ℚ)
    (wt : Option WageType) (hwt : wt ≠ some .constantBasis)
    (h : (if ind = .monthlyWage then (708 : ℚ) else 3) ≤
      baseValue ind a b + catAdjustment ind cat + cycleImpact ind y) :
    |round2 (annualRawValue ind cat y a b wt) -
        round2 ((round2 (quarterRawValue ind cat y 1 a b wt) +
          round2 (quarterRawValue ind cat y 2 a b wt) +
          round2 (quarterRawValue ind cat y 3 a b wt) +
          round2 (quarterRawValue ind cat y 4 a b wt)) / 4)| ≤
      (if ind = .monthlyWage then (14.1 : ℝ) else 1.3) := by
  by_cases hMW : ind = .monthlyWage
  · subst hMW
    rw [if_pos rfl] at h
    rw [if_pos rfl]
    have hC : (708 : ℝ) ≤ ((baseValue .monthlyWage a b : ℚ) : ℝ) +
        ((catAdjustment .monthlyWage cat : ℚ) : ℝ) +
        ((cycleImpact .monthlyWage y : ℚ) : ℝ) := by
      exact_mod_cast h
    unfold annualRawValue quarterRawValue
    simp only [reduceIte, if_neg hwt]
    exact mean_bound_wage
      (((baseValue .monthlyWage a b : ℚ) : ℝ) +
        ((catAdjustment .monthlyWage cat : ℚ) : ℝ) +
        ((cycleImpact .monthlyWage y : ℚ) : ℝ))
      (Real.sin ((y : ℝ) + (seedOf cat .monthlyWage : ℝ)))
      (Real.sin (((1 : ℕ) : ℝ) * 1.5)) (Real.sin (((2 : ℕ) : ℝ) * 1.5))
      (Real.sin (((3 : ℕ) : ℝ) * 1.5)) (Real.sin (((4 : ℕ) : ℝ) * 1.5))
      (Real.sin ((y : ℝ) * 4 + ((1 : ℕ) : ℝ) + (seedOf cat .monthlyWage : ℝ)))
      (Real.sin ((y : ℝ) * 4 + ((2 : ℕ) : ℝ) + (seedOf cat .monthlyWage : ℝ)))
      (Real.sin ((y : ℝ) * 4 + ((3 : ℕ) : ℝ) + (seedOf cat .monthlyWage : ℝ)))
      (Real.sin ((y : ℝ) * 4 + ((4 : ℕ) : ℝ) + (seedOf cat .monthlyWage : ℝ)))
      hC (Real.abs_sin_le_one _) (Real.abs_sin_le_one _) (Real.abs_sin_le_one _)
      (Real.abs_sin_le_one _) (Real.abs_sin_le_one _) (Real.abs_sin_le_one _)
      (Real.abs_sin_le_one _) (Real.abs_sin_le_one _) (Real.abs_sin_le_one _)
  · rw [if_neg hMW] at h
    rw [if_neg hMW]
    have hC : (3 : ℝ) ≤ ((baseValue ind a b : ℚ) : ℝ) +
        ((catAdjustment ind cat : ℚ) : ℝ) + ((cycleImpact ind y : ℚ) : ℝ) := by
      exact_mod_cast h
    unfold annualRawValue quarterRawValue
    simp only [if_neg hMW]
    exact mean_bound_rate
      (((baseValue ind a b : ℚ) : ℝ) + ((catAdjustment ind cat : ℚ) : ℝ) +
        ((cycleImpact ind y : ℚ) : ℝ))
      (Real.sin ((y : ℝ) + (seedOf cat ind : ℝ)))
      (Real.sin (((1 : ℕ) : ℝ) * 1.5)) (Real.sin (((2 : ℕ) : ℝ) * 1.5))
      (Real.sin (((3 : ℕ) : ℝ) * 1.5)) (Real.sin (((4 : ℕ) : ℝ) * 1.5))
      (Real.sin ((y : ℝ) * 4 + ((1 : ℕ) : ℝ) + (seedOf cat ind : ℝ)))
      (Real.sin ((y : ℝ) * 4 + ((2 : ℕ) : ℝ) + (seedOf cat ind : ℝ)))
      (Real.sin ((y : ℝ) * 4 + ((3 : ℕ) : ℝ) + (seedOf cat ind : ℝ)))
      (Real.sin ((y : ℝ) * 4 + ((4 : ℕ) : ℝ) + (seedOf cat ind : ℝ)))
      hC (Real.abs_sin_le_one _) (Real.abs_sin_le_one _) (Real.abs_sin_le_one _)
      (Real.abs_sin_le_one _) (Real.abs_sin_le_one _) (Real.abs_sin_le_one _)
      (Real.abs_sin_le_one _) (Real.abs_sin_le_one _) (Real.abs_sin_le_one _)

/-- Claim C2 (witness for the amended theorem) at (unemployment rate,
"Total", year 2005, ages 55-70, no wage basis): the slack hypothesis holds
since base 12 + adjustment 0 + cycle -5 = 7 is at least 3. -/
theorem claim_C2_amended_witness :
    |round2 (annualRawValue .unemploymentRate "Total" 2005 55 70 none) -
        round2 ((round2 (quarterRawValue .unemploymentRate "Total" 2005 1 55 70 none) +
          round2 (quarterRawValue .unemploymentRate "Total" 2005 2 55 70 none) +
          round2 (quarterRawValue .unemploymentRate "Total" 2005 3 55 70 none) +
          round2 (quarterRawValue .unemploymentRate "Total" 2005 4 55 70 none)) / 4)| ≤
      (if IndicatorType.unemploymentRate = IndicatorType.monthlyWage
       then (14.1 : ℝ) else 1.3) := by
  apply claim_C2_amended
  · simp
  · have h1 : baseValue .unemploymentRate 55 70 = 12 := by
      unfold baseValue
      norm_num
    have h2 : catAdjustment .unemploymentRate "Total" = 0 := by
      unfold catAdjustment
      simp
    have h3 : cycleImpact .unemploymentRate 2005 = -5 := by
      show (if (2005 : ℤ) < 2008 then (-5 : ℚ)
        else if (2005 : ℤ) < 2013 then ((2005 : ℚ) - 2008) * 3
        else if (2005 : ℤ) < 2020 then 15 - ((2005 : ℚ) - 2013) * (3 / 2)
        else if (2005 : ℤ) = 2020 then 3
        else -2) = -5
      norm_num
    rw [if_neg (by decide), h1, h2, h3]
    norm_num

/-- Claim C8 (counterexample): the claim says the final sequence is sorted in
lexicographically non-decreasing period order.  It is false: the code never
sorts; the result is a concatenation of per-category blocks, so for the query
(unemployment rate, region, annual, 2010-2011, ages 16-64) the period
sequence is "2010", "2011" repeated per category, which drops back from
"2011" to "2010" at every category boundary. -/
theorem claim_C8_counterexample :
    ¬ List.Pairwise periodLe
        ((fetchLaborData .unemploymentRate .region .annual 2010 2011 16 64
          none).map DataPoint.period) := by
  have hmap : (fetchLaborData .unemploymentRate .region .annual 2010 2011 16 64
      none).map DataPoint.period =
      ["2010", "2011", "2010", "2011", "2010", "2011", "2010", "2011",
       "2010", "2011", "2010", "2011", "2010", "2011", "2010", "2011",
       "2010", "2011", "2010", "2011", "2010", "2011"] := by
    simp +decide [fetchLaborData, categoryObservations, getAvailableItems,
      MOCK_REGIONS, yearRange_2010_2011]
  rw [hmap]
  decide

/-- Claim C8 (amended): the final sequence is the concatenation, in catalog
order, of one block per category; within each block the observations are in
non-decreasing (chronological) year order, but the sequence as a whole is not
sorted by period string when several categories are present. -/
theorem claim_C8_amended (ind : IndicatorType) (ch : CharacteristicType)
    (freq : FrequencyType) (startYear endYear : ℤ) (a b : ℚ)
    (wt : Option WageType) :
    fetchLaborData ind ch freq startYear endYear a b wt =
      (getAvailableItems ch).flatMap
        (categoryObservations ind freq startYear endYear a b wt) ∧
    ∀ cat, List.Pairwise (fun d e => d.year ≤ e.year)
      (categoryObservations ind freq startYear endYear a b wt cat) := by
  refine ⟨rfl, fun cat => ?_⟩
  unfold categoryObservations
  rw [List.flatMap_def]
  refine List.pairwise_flatten.mpr ⟨?_, ?_⟩
  · intro l hl
    obtain ⟨y, hy, rfl⟩ := List.mem_map.mp hl
    cases freq with
    | annual =>
        rw [if_pos rfl]
        exact List.pairwise_singleton _ _
    | quarterly =>
        rw [if_neg (by decide)]
        refine List.pairwise_map.mpr ?_
        simp [List.pairwise_cons]
  · refine List.pairwise_map.mpr ?_
    refine (yearRange_pairwise startYear endYear).imp ?_
    intro y1 y2 h12 x hx z hz
    have hx1 : x.year = y1 := by
      cases freq with
      | annual =>
          rw [if_pos rfl, List.mem_singleton] at hx
          subst hx
          rfl
      | quarterly =>
          rw [if_neg (by decide)] at hx
          obtain ⟨q, _, rfl⟩ := List.mem_map.mp hx
          rfl
    have hz1 : z.year = y2 := by
      cases freq with
      | annual =>
          rw [if_pos rfl, List.mem_singleton] at hz
          subst hz
          rfl
      | quarterly =>
          rw [if_neg (by decide)] at hz
          obtain ⟨q, _, rfl⟩ := List.mem_map.mp hz
          rfl
    rw [hx1, hz1]
    exact h12

/-- Claim C3: the synthesis entry point is deterministic - two calls of
`fetchLaborData` with identical arguments return identical observation
lists, element for element.  The source contains no randomness, clock reads
or mutable global state (its only numeric primitive is the pure `Math.sin`),
so its embedding is a pure function and determinism is definitional. -/
theorem claim_C3_deterministic (ind : IndicatorType) (ch : CharacteristicType)
    (freq : FrequencyType) (startYear endYear : ℤ) (minAge maxAge : ℚ)
    (wageType : Option WageType) :
    fetchLaborData ind ch freq startYear endYear minAge maxAge wageType =
      fetchLaborData ind ch freq startYear endYear minAge maxAge wageType ∧
    ∀ i : ℕ,
      (fetchLaborData ind ch freq startYear endYear minAge maxAge wageType)[i]? =
        (fetchLaborData ind ch freq startYear endYear minAge maxAge wageType)[i]? :=
  ⟨rfl, fun _ => rfl⟩

/-- Claim C4: for every breakdown dimension, `getAvailableItems` returns a
non-empty list whose first element is "Total"; being a total function over
the four-member enumeration, it never fails (the source's `default: []` arm
is unreachable). -/
theorem claim_C4_catalog_total_first (ch : CharacteristicType) :
    getAvailableItems ch ≠ [] ∧ (getAvailableItems ch).head? = some "Total" := by
  cases ch <;> exact ⟨by decide, by decide⟩

/-- Claim C7: for the monthly wage with constant-currency basis, every value
equals the corresponding nominal value multiplied by `1.022 ^ (2024 - year)`
before the final two-decimal rounding; with nominal (or absent) basis, or for
any non-wage indicator, the adjustment is the identity.  Stated for both the
annual and the quarterly synthesis path. -/
theorem claim_C7_inflation_adjustment (ind : IndicatorType) (cat : String)
    (y : ℤ) (q : ℕ) (minAge maxAge : ℚ) (wageType : Option WageType) :
    annualRawValue ind cat y minAge maxAge wageType =
      annualRawValue ind cat y minAge maxAge (some .nominal) *
        (if ind = .monthlyWage ∧ wageType = some .constantBasis
         then inflationFactor y else 1) ∧
    quarterRawValue ind cat y q minAge maxAge wageType =
      quarterRawValue ind cat y q minAge maxAge (some .nominal) *
        (if ind = .monthlyWage ∧ wageType = some .constantBasis
         then inflationFactor y else 1) := by
  constructor <;>
    (cases ind <;> rcases wageType with _ | (_ | _) <;>
      simp [annualRawValue, quarterRawValue])

/-- Claim C5 (helper): in any year of the 2008-2012 crisis window the rounded
annual unemployment value of "Andalusia" strictly exceeds the one of
"Madrid", whatever the age filter.  The category adjustments are +3 vs 0 and
the noise amplitude is only 0.4 on each side. -/
lemma madrid_lt_andalusia_annual (y : ℤ) (a b : ℚ) (h1 : 2008 ≤ y) (h2 : y < 2013) :
    round2 (annualRawValue .unemploymentRate "Madrid" y a b none) <
      round2 (annualRawValue .unemploymentRate "Andalusia" y a b none) := by
  have hB : (11 : ℚ) ≤ baseValue .unemploymentRate a b :=
    eleven_le_baseValue_unemployment a b
  have hBR : (11 : ℝ) ≤ ((baseValue .unemploymentRate a b : ℚ) : ℝ) := by
    exact_mod_cast hB
  have hA : ((catAdjustment .unemploymentRate "Andalusia" : ℚ) : ℝ) = 3 := by
    rw [catAdjustment_unemployment_andalusia]
    norm_num
  have hM : ((catAdjustment .unemploymentRate "Madrid" : ℚ) : ℝ) = 0 := by
    rw [catAdjustment_unemployment_madrid]
    norm_num
  have hC : (0 : ℝ) ≤ ((cycleImpact .unemploymentRate y : ℚ) : ℝ) := by
    exact_mod_cast cycleImpact_unemployment_nonneg h1 h2
  have hsA := Real.neg_one_le_sin
    ((y : ℝ) + (seedOf "Andalusia" .unemploymentRate : ℝ))
  have hsA2 := Real.sin_le_one
    ((y : ℝ) + (seedOf "Andalusia" .unemploymentRate : ℝ))
  have hsM := Real.neg_one_le_sin
    ((y : ℝ) + (seedOf "Madrid" .unemploymentRate : ℝ))
  have hsM2 := Real.sin_le_one
    ((y : ℝ) + (seedOf "Madrid" .unemploymentRate : ℝ))
  unfold annualRawValue
  rw [if_neg (by decide), if_neg (by decide), hA, hM,
    max_eq_right (by nlinarith), max_eq_right (by nlinarith)]
  apply round2_lt_round2
  nlinarith

/-- Claim C5: for the query (unemployment rate, region, annual, 2010-2012,
any age filter), the returned value for "Andalusia" strictly exceeds the
returned value for "Madrid" in each of the three years, reading the values
off the returned list the way the rendering layer does. -/
theorem claim_C5_andalusia_exceeds_madrid (a b : ℚ) :
    (∃ va vm : ℝ,
      valueAt (fetchLaborData .unemploymentRate .region .annual 2010 2012 a b none)
          "Andalusia" "2010" = some va ∧
      valueAt (fetchLaborData .unemploymentRate .region .annual 2010 2012 a b none)
          "Madrid" "2010" = some vm ∧ vm < va) ∧
    (∃ va vm : ℝ,
      valueAt (fetchLaborData .unemploymentRate .region .annual 2010 2012 a b none)
          "Andalusia" "2011" = some va ∧
      valueAt (fetchLaborData .unemploymentRate .region .annual 2010 2012 a b none)
          "Madrid" "2011" = some vm ∧ vm < va) ∧
    (∃ va vm : ℝ,
      valueAt (fetchLaborData .unemploymentRate .region .annual 2010 2012 a b none)
          "Andalusia" "2012" = some va ∧
      valueAt (fetchLaborData .unemploymentRate .region .annual 2010 2012 a b none)
          "Madrid" "2012" = some vm ∧ vm < va) := by
  refine ⟨⟨_, _, ?_, ?_, madrid_lt_andalusia_annual 2010 a b (by norm_num) (by norm_num)⟩,
    ⟨_, _, ?_, ?_, madrid_lt_andalusia_annual 2011 a b (by norm_num) (by norm_num)⟩,
    ⟨_, _, ?_, ?_, madrid_lt_andalusia_annual 2012 a b (by norm_num) (by norm_num)⟩⟩ <;>
    simp +decide [valueAt, fetchLaborData, categoryObservations, getAvailableItems,
      MOCK_REGIONS, yearRange_2010_2012]

/-- Claim C9: every observation in every returned list is floor-clamped and
carries at most two decimal digits: rate indicators never go below 2, the
monthly wage never goes below 700 on a nominal (or absent) basis, nor on a
constant basis for observation years up to the 2024 reference, and every
value is an integer number of hundredths. -/
theorem claim_C9_floors_and_rounding (ind : IndicatorType) (ch : CharacteristicType)
    (freq : FrequencyType) (startYear endYear : ℤ) (a b : ℚ)
    (wt : Option WageType) (d : DataPoint)
    (hd : d ∈ fetchLaborData ind ch freq startYear endYear a b wt) :
    (ind ≠ .monthlyWage → 2 ≤ d.value) ∧
    (ind = .monthlyWage → wt ≠ some .constantBasis → 700 ≤ d.value) ∧
    (ind = .monthlyWage → wt = some .constantBasis → d.year ≤ 2024 → 700 ≤ d.value) ∧
    ∃ k : ℤ, d.value = (k : ℝ) / 100 := by
  obtain ⟨cat, hcat, hd⟩ := List.mem_flatMap.mp hd
  obtain ⟨y, hy, hd⟩ := List.mem_flatMap.mp hd
  have hshape : (d.value = round2 (annualRawValue ind cat y a b wt) ∧ d.year = y) ∨
      ∃ q : ℕ, d.value = round2 (quarterRawValue ind cat y q a b wt) ∧ d.year = y := by
    cases freq with
    | annual =>
        rw [if_pos rfl, List.mem_singleton] at hd
        subst hd
        exact Or.inl ⟨rfl, rfl⟩
    | quarterly =>
        rw [if_neg (by decide)] at hd
        obtain ⟨q, _, rfl⟩ := List.mem_map.mp hd
        exact Or.inr ⟨q, rfl, rfl⟩
  rcases hshape with ⟨hv, hyr⟩ | ⟨q, hv, hyr⟩ <;> rw [hv, hyr] <;>
    refine ⟨fun hind => ?_, fun hind hwt => ?_, fun hind hwt hyear => ?_, _, rfl⟩
  · rw [show (2 : ℝ) = round2 2 from round2_two.symm]
    exact round2_mono (annualRawValue_ge_two cat y a b wt hind)
  · subst hind
    rw [show (700 : ℝ) = round2 700 from round2_sevenHundred.symm]
    exact round2_mono (annualRawValue_wage_ge (Or.inl hwt))
  · subst hind
    rw [show (700 : ℝ) = round2 700 from round2_sevenHundred.symm]
    exact round2_mono (annualRawValue_wage_ge (Or.inr hyear))
  · rw [show (2 : ℝ) = round2 2 from round2_two.symm]
    exact round2_mono (quarterRawValue_ge_two cat y q a b wt hind)
  · subst hind
    rw [show (700 : ℝ) = round2 700 from round2_sevenHundred.symm]
    exact round2_mono (quarterRawValue_wage_ge (Or.inl hwt))
  · subst hind
    rw [show (700 : ℝ) = round2 700 from round2_sevenHundred.symm]
    exact round2_mono (quarterRawValue_wage_ge (Or.inr hyear))


/-- Modelled from the spec: "Add a seasonal term as a function of quarter
(via a sinusoid over quarter index) for non-wage indicators only."  This is
the quarterly monthly-wage value (nominal basis, before the final rounding)
as the spec asserts it: identical to the code's wage branch except that it
contains no seasonal component, only base, category adjustment, cycle and the
bounded pseudo-noise term. -/
noncomputable def specWageQuarterNoSeasonal (cat : String) (y : ℤ) (q : ℕ)
    (minAge maxAge : ℚ) : ℝ :=
  let volatilitySeed : ℝ :=
    Real.sin ((y : ℝ) * 4 + (q : ℝ) + (seedOf cat .monthlyWage : ℝ)) * 0.3
  let volatility := volatilitySeed * 10
  max 700 (((baseValue .monthlyWage minAge maxAge : ℚ) : ℝ) +
    ((catAdjustment .monthlyWage cat : ℚ) : ℝ) +
    ((cycleImpact .monthlyWage y : ℚ) : ℝ) + volatility)

lemma wage_total_2011_center :
    ((baseValue .monthlyWage 16 64 : ℚ) : ℝ) +
      ((catAdjustment .monthlyWage "Total" : ℚ) : ℝ) +
      ((cycleImpact .monthlyWage 2011 : ℚ) : ℝ) = 1804 := by
  have h1 : baseValue .monthlyWage 16 64 = 1525 := by
    unfold baseValue
    norm_num
  have h2 : catAdjustment .monthlyWage "Total" = 0 := by
    unfold catAdjustment
    simp
  have h3 : cycleImpact .monthlyWage 2011 = 279 := by
    show ((2011 : ℚ) - 2002) * 35
        + (if (2008 : ℤ) ≤ 2011 ∧ (2011 : ℤ) < 2014 then -(((2011 : ℚ) - 2008) * 12) else 0)
        + (if (2021 : ℤ) ≤ 2011 then ((2011 : ℚ) - 2021) * 30 else 0) = 279
    norm_num
  rw [h1, h2, h3]
  norm_num

/-- Claim C6 (counterexample): the claim says a synthesized quarterly wage
value contains no seasonal component.  At the concrete input (monthly wage,
category "Total", year 2011, quarter 1, ages 16-64, nominal basis) the code's
value differs from the spec's seasonal-free value: both share the same noise
draw, but the code adds the seasonal term scaled by 10, which shifts the
value by 5 * sin 1.5, roughly 4.99. -/
theorem claim_C6_counterexample :
    round2 (quarterRawValue .monthlyWage "Total" 2011 1 16 64 none) ≠
      round2 (specWageQuarterNoSeasonal "Total" 2011 1 16 64) := by
  have hb : baseValue .monthlyWage 16 64 = 1525 := by
    unfold baseValue
    norm_num
  have ha : catAdjustment .monthlyWage "Total" = 0 := by
    unfold catAdjustment
    simp
  have hcy : cycleImpact .monthlyWage 2011 = 279 := by
    show ((2011 : ℚ) - 2002) * 35
        + (if (2008 : ℤ) ≤ 2011 ∧ (2011 : ℤ) < 2014 then -(((2011 : ℚ) - 2008) * 12) else 0)
        + (if (2021 : ℤ) ≤ 2011 then ((2011 : ℚ) - 2021) * 30 else 0) = 279
    norm_num
  have hsd : seedOf "Total" .monthlyWage = 17 := by decide
  unfold quarterRawValue specWageQuarterNoSeasonal
  rw [if_pos rfl, if_neg (by decide), hb, ha, hcy, hsd]
  norm_num
  have hseason : (0.99 : ℝ) ≤ Real.sin (3 / 2) := sin_three_halves_ge
  have hseason2 : Real.sin ((3 : ℝ) / 2) ≤ 1 := Real.sin_le_one _
  have hn1 := Real.neg_one_le_sin (8062 : ℝ)
  have hn2 := Real.sin_le_one (8062 : ℝ)
  rw [sup_eq_right.mpr (by nlinarith), sup_eq_right.mpr (by nlinarith)]
  exact ne_of_gt (round2_lt_round2 (by nlinarith))

/-- Claim C6 (amended): the seasonal sinusoid is added for every indicator;
for the monthly wage it enters the quarterly value scaled by 10 (amplitude 5)
on top of the same noise term, so whenever the 700 wage floor is not binding
the quarterly wage value is exactly the seasonal-free value plus
`sin(1.5 q) * 0.5 * 10`. -/
theorem claim_C6_amended (cat : String) (y : ℤ) (q : ℕ) (minAge maxAge : ℚ)
    (h : (708 : ℚ) ≤ baseValue .monthlyWage minAge maxAge +
      catAdjustment .monthlyWage cat + cycleImpact .monthlyWage y) :
    quarterRawValue .monthlyWage cat y q minAge maxAge none =
      specWageQuarterNoSeasonal cat y q minAge maxAge +
        Real.sin ((q : ℝ) * 1.5) * 0.5 * 10 := by
  have hR : (708 : ℝ) ≤ ((baseValue .monthlyWage minAge maxAge : ℚ) : ℝ) +
      ((catAdjustment .monthlyWage cat : ℚ) : ℝ) +
      ((cycleImpact .monthlyWage y : ℚ) : ℝ) := by
    exact_mod_cast h
  have hs1 := Real.neg_one_le_sin
    ((y : ℝ) * 4 + (q : ℝ) + (seedOf cat .monthlyWage : ℝ))
  have hs2 := Real.sin_le_one
    ((y : ℝ) * 4 + (q : ℝ) + (seedOf cat .monthlyWage : ℝ))
  have ht1 := Real.neg_one_le_sin ((q : ℝ) * 1.5)
  have ht2 := Real.sin_le_one ((q : ℝ) * 1.5)
  unfold quarterRawValue specWageQuarterNoSeasonal
  rw [if_pos rfl, if_neg (by decide)]
  rw [max_eq_right (by nlinarith), max_eq_right (by nlinarith)]
  ring

/-- Claim C6 (witness for the amended theorem) at the concrete input
(category "Total", year 2011, quarter 1, ages 16-64): the floor-slack
hypothesis holds since the center value is 1804. -/
theorem claim_C6_amended_witness :
    quarterRawValue .monthlyWage "Total" 2011 1 16 64 none =
      specWageQuarterNoSeasonal "Total" 2011 1 16 64 +
        Real.sin (((1 : ℕ) : ℝ) * 1.5) * 0.5 * 10 := by
  apply claim_C6_amended "Total" 2011 1 16 64
  have h1 : baseValue .monthlyWage 16 64 = 1525 := by
    unfold baseValue
    norm_num
  have h2 : catAdjustment .monthlyWage "Total" = 0 := by
    unfold catAdjustment
    simp
  have h3 : cycleImpact .monthlyWage 2011 = 279 := by
    show ((2011 : ℚ) - 2002) * 35
        + (if (2008 : ℤ) ≤ 2011 ∧ (2011 : ℤ) < 2014 then -(((2011 : ℚ) - 2008) * 12) else 0)
        + (if (2021 : ℤ) ≤ 2011 then ((2011 : ℚ) - 2021) * 30 else 0) = 279
    norm_num
  rw [h1, h2, h3]
  norm_num

/-- The concrete "Total" observation of the annual unemployment query over
gender for the single year 2011, ages 16-64; used to instantiate claim C9. -/
noncomputable def sampleTotalPoint : DataPoint :=
  { period := toString (2011 : ℤ), year := 2011, category := "Total",
    value := round2 (annualRawValue .unemploymentRate "Total" 2011 16 64 none) }

/-- Claim C9 (witness): the floor and hundredths properties instantiated on
the "Total" observation of the annual unemployment query over gender for the
single year 2011, ages 16-64. -/
theorem claim_C9_floors_witness :
    2 ≤ sampleTotalPoint.value ∧
    ∃ k : ℤ, sampleTotalPoint.value = (k : ℝ) / 100 := by
  have hmem : sampleTotalPoint ∈
      fetchLaborData .unemploymentRate .gender .annual 2011 2011 16 64 none := by
    unfold fetchLaborData categoryObservations sampleTotalPoint
    refine List.mem_flatMap.mpr ⟨"Total", by decide,
      List.mem_flatMap.mpr ⟨2011, mem_yearRange.mpr (by norm_num), ?_⟩⟩
    rw [if_pos rfl]
    exact List.mem_singleton.mpr rfl
  have h := claim_C9_floors_and_rounding .unemploymentRate .gender .annual
    2011 2011 16 64 none _ hmem
  exact ⟨h.1 (by decide), h.2.2.2⟩

/-- Claim C10: the categories "Murcia" and "Aragon" (same length, neither
special-cased) receive the same seed and the same category adjustment, hence
identical period, year and value streams, for every indicator, frequency,
year range, age filter and wage basis; and the full result is just the
concatenation of these per-category streams over the region catalog. -/
theorem claim_C10_murcia_aragon_coincide (ind : IndicatorType)
    (freq : FrequencyType) (startYear endYear : ℤ) (minAge maxAge : ℚ)
    (wageType : Option WageType) :
    (categoryObservations ind freq startYear endYear minAge maxAge wageType
        "Murcia").map (fun d => (d.period, d.year, d.value)) =
      (categoryObservations ind freq startYear endYear minAge maxAge wageType
        "Aragon").map (fun d => (d.period, d.year, d.value)) ∧
    fetchLaborData ind .region freq startYear endYear minAge maxAge wageType =
      (getAvailableItems .region).flatMap
        (categoryObservations ind freq startYear endYear minAge maxAge wageType) := by
  refine ⟨?_, rfl⟩
  have hseed : seedOf "Murcia" ind = seedOf "Aragon" ind := by
    cases ind <;> decide
  have hadj : catAdjustment ind "Murcia" = catAdjustment ind "Aragon" := by
    unfold catAdjustment
    rw [hseed]
    simp
  unfold categoryObservations
  rw [List.map_flatMap, List.map_flatMap]
  apply List.flatMap_congr
  intro y _
  cases freq with
  | annual =>
      rw [if_pos rfl, if_pos rfl]
      simp only [List.map_cons, List.map_nil]
      simp [annualRawValue, hseed, hadj]
  | quarterly =>
      rw [if_neg (by decide), if_neg (by decide)]
      simp only [List.map_map, Function.comp]
      simp [quarterRawValue, hseed, hadj]

end LaborApps
